import Mathlib

/-!
Verification development for `coffeine/transfer_learning.py`.

The source file has three parts:

* `_check_data` — normalization of heterogeneous array/tabular input into a
  3-dimensional stack of covariance matrices (source lines 6–21);
* `ReCenter` — per-domain re-centering built on pyriemann's `TLCenter`
  (source lines 24–109);
* `ReScale` — per-domain re-scaling built on pyriemann's `TLStretch`
  (source lines 112–205).

Two embedding layers are used.

Layer 1 models `_check_data` at the level of array shapes and dtypes.  A
numeric ndarray is a shape together with row-major data; the tabular input
(`X.values`) is a rectangular grid of cells.  The semantics of `np.stack`
are modelled as in numpy: stacking a 1-D object column of equally shaped
numeric cells produces a numeric array with one extra leading axis, while
iterating a 2-D object array yields its 1-D object rows unchanged, so
stacking them produces a 2-D *object* array of the original cells.

Layer 2 models `ReCenter`/`ReScale` on the canonical post-normalization
stack.  SPD matrices are modelled as 1-channel SPD matrices, i.e. (positive)
rationals, with the identity matrix represented by `1`.  The manifold
geometry (mean, squared geodesic distance, congruence re-centering,
geodesic stretching) is supplied by the external collaborator library and is
abstracted into a `MetricOps` record; the concrete instantiation
`euclidOps` realises the Euclidean metric (a valid configuration value per
the spec) on 1×1 matrices.  The collaborator entry points `encode_domains`,
`TLCenter` and `TLStretch` are not part of this repository; they are
modelled from the spec's collaborator contract (§6) and the collaborator's
documented behaviour, and each such definition is marked accordingly.
-/

/-! ## Layer 1: array model and `_check_data` -/

/-- A numeric ndarray: a shape together with row-major data entries. -/
structure NumArr where
  shape : List Nat
  data : List ℚ
deriving DecidableEq

/-- Errors that `_check_data` can raise: `X.values` on a plain ndarray
raises `AttributeError`; `np.stack` on an empty or ragged sequence raises
`ValueError`; the single-sample squareness `assert` raises
`AssertionError`. -/
inductive PyErr where
  | attributeError
  | valueError
  | assertionError
deriving DecidableEq

/-- Result of the stacking step inside `_check_data`: either a numeric
ndarray, or an object-dtype ndarray whose elements are numeric arrays
(this is what `np.stack` produces from a 2-D object-dtype `values`). -/
inductive StackOut where
  | numeric (a : NumArr)
  | objArr (shape : List Nat) (cells : List NumArr)
deriving DecidableEq

/-- The `.shape` of a stacking result. -/
def StackOut.shape : StackOut → List Nat
  | .numeric a => a.shape
  | .objArr s _ => s

/-- `out[np.newaxis, :, :]`: prepend a leading axis of size 1. -/
def StackOut.newaxis : StackOut → StackOut
  | .numeric a => .numeric ⟨1 :: a.shape, a.data⟩
  | .objArr s cs => .objArr (1 :: s) cs

/-- Inputs accepted by `_check_data`: a plain numeric ndarray (any ndim),
or a tabular container whose `.values` is a 2-D array of rows of cells,
with dtype either object (`isObj = true`) or numeric. -/
inductive XInput where
  | ndarr (a : NumArr)
  | frame (isObj : Bool) (rows : List (List NumArr))
deriving DecidableEq

/-- `np.stack` over a 1-D object array of numeric cells (the
`values[:, 0]` path): requires a nonempty sequence of equally shaped
arrays and prepends the sequence length as a new leading axis. -/
def npStackCol (cells : List NumArr) : Except PyErr StackOut :=
  match cells with
  | [] => .error .valueError
  | c :: rest =>
    if rest.all (fun a => a.shape == c.shape) then
      .ok (.numeric ⟨(c :: rest).length :: c.shape, ((c :: rest).map NumArr.data).flatten⟩)
    else .error .valueError

/-- `np.stack` over a 2-D object-dtype `values` (the multi-column path):
iterating the 2-D array yields its 1-D object rows, which `asanyarray`
leaves unchanged, so the result is a 2-D object array of shape
`(n_rows, n_cols)` holding all the original cells. -/
def npStackGrid (rows : List (List NumArr)) : Except PyErr StackOut :=
  match rows with
  | [] => .error .valueError
  | r :: rest =>
    if rest.all (fun q => q.length == r.length) then
      .ok (.objArr [(r :: rest).length, r.length] ((r :: rest).flatten))
    else .error .valueError

/-- The stacking step of `_check_data` (source lines 14–17): drop the
column axis when `values.shape[1] == 1`, then `np.stack` the result. -/
def stackValues (rows : List (List NumArr)) : Except PyErr StackOut :=
  if (rows.headD []).length = 1 then
    npStackCol (rows.map (fun r => r.headD ⟨[], []⟩))
  else
    npStackGrid rows

/-- The single-sample step of `_check_data` (source lines 18–20): when the
stack is 2-dimensional, `assert out.shape[0] == out.shape[1]` and add a
leading axis of size 1. -/
def singleSampleStep (st : StackOut) : Except PyErr StackOut :=
  if st.shape.length = 2 then
    if st.shape.getD 0 0 = st.shape.getD 1 0 then .ok st.newaxis
    else .error .assertionError
  else .ok st

/-- `_check_data` (source lines 6–21).  A 3-dimensional ndarray is
returned unchanged; any other plain ndarray has no `.values` attribute; a
tabular container with object dtype goes through stacking and the
single-sample step; a tabular container with a non-object dtype leaves
`out` at its initial `None`. -/
def _check_data : XInput → Except PyErr (Option StackOut)
  | .ndarr a =>
    if a.shape.length = 3 then .ok (some (.numeric a)) else .error .attributeError
  | .frame isObj rows =>
    if isObj then
      match stackValues rows with
      | .error e => .error e
      | .ok st =>
        match singleSampleStep st with
        | .error e => .error e
        | .ok out => .ok (some out)
    else .ok none

/-! ## Layer 2: metric operations and the collaborator estimators

SPD matrices are 1-channel, i.e. rationals, with `1` as the identity
matrix.  `MetricOps` packages the manifold-geometry primitives that the
spec delegates to the collaborator library. -/

/-- Modelled from the spec: the manifold-geometry primitives the spec
treats as a provided library (§1, §6) — the metric's mean (barycenter),
squared geodesic distance, the congruence transform
`M^(-1/2) S M^(-1/2)` re-centering `M` to the identity, its inverse, and
the geodesic stretching of an identity-centered matrix by a dispersion. -/
structure MetricOps where
  mean : List ℚ → ℚ
  dist2 : ℚ → ℚ → ℚ
  recenter : ℚ → ℚ → ℚ
  uncenter : ℚ → ℚ → ℚ
  stretch : ℚ → ℚ → ℚ

/-- The Euclidean metric on 1×1 SPD matrices, a valid metric configuration
per the spec (§4.4): arithmetic mean, squared distance, and translation
moving the mean to the identity `1`.  The geodesic stretch factor
`1/sqrt(d)` of the spec (§4.4) is irrational over ℚ; the stand-in factor
`1/d` is used instead — no claim below depends on the numeric value of a
stretched matrix. -/
def euclidOps : MetricOps where
  mean xs := xs.sum / (xs.length : ℚ)
  dist2 x m := (x - m) ^ 2
  recenter m s := s - m + 1
  uncenter m s := s + m - 1
  stretch d s := 1 + (s - 1) / d

/-- Modelled from the spec (§4.2, §6): `encode_domains(X, y, domains)`
pairs each sample's class label with its domain tag, producing the
combined key sequence used for per-domain grouping (`X` is only passed
through and is not needed here). -/
def encode_domains (y : List ℤ) (domains : List String) : List (ℤ × String) :=
  y.zip domains

/-- The distinct domain tags appearing in a combined key sequence. -/
def uniqueDomains (y_enc : List (ℤ × String)) : List String :=
  (y_enc.map Prod.snd).dedup

/-- The samples of `X` whose combined key carries domain tag `d`. -/
def samplesOf (X : List ℚ) (y_enc : List (ℤ × String)) (d : String) : List ℚ :=
  ((X.zip y_enc).filter (fun p => p.2.2 == d)).map Prod.fst

/-- The metric mean of domain `d`'s samples. -/
def domainMean (ops : MetricOps) (X : List ℚ) (y_enc : List (ℤ × String)) (d : String) : ℚ :=
  ops.mean (samplesOf X y_enc d)

/-- Modelled from the spec (§6): the collaborator's Riemannian-mean
estimator `TLCenter`, before fitting: a target-domain name and a metric. -/
structure TLCenter where
  target_domain : String
  metric : MetricOps

/-- A fitted `TLCenter`: additionally carries `recenter_`, the mapping
from each domain tag to that domain's metric mean. -/
structure TLCenterFitted where
  target_domain : String
  metric : MetricOps
  recenter_ : List (String × ℚ)

/-- Modelled from the spec (§6): `TLCenter.fit` groups `X` by the domain
tag decoded from the combined keys and computes one metric mean per
domain, exposing the mapping `recenter_`. -/
def TLCenter.fit (tl : TLCenter) (X : List ℚ) (y_enc : List (ℤ × String)) : TLCenterFitted :=
  { target_domain := tl.target_domain, metric := tl.metric,
    recenter_ := (uniqueDomains y_enc).map (fun d => (d, domainMean tl.metric X y_enc d)) }

/-- Modelled from the spec (§6, §4.3): `TLCenter.fit_transform` fits and
additionally re-centers each matrix by its own domain's mean in one pass. -/
def TLCenter.fit_transform (tl : TLCenter) (X : List ℚ) (y_enc : List (ℤ × String)) :
    TLCenterFitted × List ℚ :=
  (tl.fit X y_enc,
   (X.zip y_enc).map (fun p => tl.metric.recenter (domainMean tl.metric X y_enc p.2.2) p.1))

/-- Dictionary lookup in a domain-keyed association list (the collaborator
stores per-domain statistics in a dict); only queried at fitted keys. -/
def lookupD (l : List (String × ℚ)) (d : String) : ℚ :=
  ((l.find? (fun p => p.1 == d)).map Prod.snd).getD 0

/-- Modelled from the spec (§6): the collaborator's dispersion/stretch
estimator `TLStretch`, before fitting: a target-domain name, the flag
indicating whether the input is already centered, and a metric. -/
structure TLStretch where
  target_domain : String
  centered_data : Bool
  metric : MetricOps

/-- A fitted `TLStretch`: carries the per-domain means used as dispersion
centers (`_means` in the collaborator) and the per-domain dispersions. -/
structure TLStretchFitted where
  target_domain : String
  centered_data : Bool
  metric : MetricOps
  means : List (String × ℚ)
  dispersions_ : List (String × ℚ)

/-- The dispersion center used by `TLStretch` for domain `d`: the identity
when `centered_data` is set, otherwise the domain's recomputed metric
mean. -/
def stretchMean (tl : TLStretch) (X : List ℚ) (y_enc : List (ℤ × String)) (d : String) : ℚ :=
  if tl.centered_data then 1 else tl.metric.mean (samplesOf X y_enc d)

/-- The dispersion of domain `d`: the average squared geodesic distance of
the domain's samples to the dispersion center. -/
def stretchDisp (tl : TLStretch) (X : List ℚ) (y_enc : List (ℤ × String)) (d : String) : ℚ :=
  ((samplesOf X y_enc d).map
    (fun x => tl.metric.dist2 x (stretchMean tl X y_enc d))).sum
    / ((samplesOf X y_enc d).length : ℚ)

/-- Modelled from the spec (§6) and the collaborator's documented
behaviour: `TLStretch.fit` computes, per domain, a dispersion center
(identity if `centered_data`, else the domain's recomputed mean) and the
average squared geodesic distance to that center. -/
def TLStretch.fit (tl : TLStretch) (X : List ℚ) (y_enc : List (ℤ × String)) : TLStretchFitted :=
  { target_domain := tl.target_domain, centered_data := tl.centered_data, metric := tl.metric,
    means := (uniqueDomains y_enc).map (fun d => (d, stretchMean tl X y_enc d)),
    dispersions_ := (uniqueDomains y_enc).map (fun d => (d, stretchDisp tl X y_enc d)) }

/-- Modelled from the spec (§6, §4.4): a fitted `TLStretch` rescales using
the last-fitted target-domain dispersion; with `centered_data` unset it
first re-centers to the identity with the stored target-domain mean,
stretches, and re-centers back. -/
def TLStretchFitted.transform (tlf : TLStretchFitted) (X : List ℚ) : List ℚ :=
  if tlf.centered_data then
    X.map (fun s => tlf.metric.stretch (lookupD tlf.dispersions_ tlf.target_domain) s)
  else
    X.map (fun s =>
      tlf.metric.uncenter (lookupD tlf.means tlf.target_domain)
        (tlf.metric.stretch (lookupD tlf.dispersions_ tlf.target_domain)
          (tlf.metric.recenter (lookupD tlf.means tlf.target_domain) s)))

/-- Modelled from the spec (§6, §4.4): `TLStretch.fit_transform` fits and
rescales each domain's matrices by that domain's own statistics in one
pass. -/
def TLStretch.fit_transform (tl : TLStretch) (X : List ℚ) (y_enc : List (ℤ × String)) :
    TLStretchFitted × List ℚ :=
  (tl.fit X y_enc,
   (X.zip y_enc).map (fun p =>
     if tl.centered_data then tl.metric.stretch (stretchDisp tl X y_enc p.2.2) p.1
     else
       tl.metric.uncenter (stretchMean tl X y_enc p.2.2)
         (tl.metric.stretch (stretchDisp tl X y_enc p.2.2)
           (tl.metric.recenter (stretchMean tl X y_enc p.2.2) p.1))))

/-! ## Layer 2: `ReCenter` and `ReScale`

The instance state bundles the constructor parameters (`domains`, the
metric) with the mutable fitted attributes (`re_center_`/`re_scale_` and
the `means_`/`dispersions_` snapshots), all initially absent.  The methods
are translated from the source; they operate on the canonical
post-`_check_data` stack of SPD matrices (on which `_check_data` is the
identity, as proved in layer 1). -/

/-- The `ReCenter` estimator's instance state (source lines 24–39). -/
structure ReCenter where
  domains : List String
  metric : MetricOps
  re_center_ : Option TLCenterFitted := none
  means_ : Option (List (String × ℚ)) := none

/-- `ReCenter.fit` (source lines 41–61): encode the caller-supplied
labels and domains, fit a fresh `TLCenter`, store it and the fitted
per-domain means. -/
def ReCenter.fit (self : ReCenter) (X : List ℚ) (y : List ℤ) : ReCenter :=
  let y_enc := encode_domains y self.domains
  let rc := TLCenter.fit { target_domain := "target_domain", metric := self.metric } X y_enc
  { self with re_center_ := some rc, means_ := some rc.recenter_ }

/-- `ReCenter.transform` (source lines 63–86): tag every sample with the
synthetic target domain and placeholder labels, fit-and-transform a fresh
`TLCenter` on `X` itself, store the freshly fitted estimator. -/
def ReCenter.transform (self : ReCenter) (X : List ℚ) (y : Option (List ℤ)) :
    ReCenter × List ℚ :=
  let n := X.length
  let y_enc := encode_domains (List.replicate n 0) (List.replicate n "target_domain")
  let res := TLCenter.fit_transform { target_domain := "target_domain", metric := self.metric } X y_enc
  ({ self with re_center_ := some res.1 }, res.2)

/-- `ReCenter.fit_transform` (source lines 88–109): encode the
caller-supplied labels and domains and fit-and-transform a fresh
`TLCenter` in one pass. -/
def ReCenter.fit_transform (self : ReCenter) (X : List ℚ) (y : List ℤ) :
    ReCenter × List ℚ :=
  let y_enc := encode_domains y self.domains
  let res := TLCenter.fit_transform { target_domain := "target_domain", metric := self.metric } X y_enc
  ({ self with re_center_ := some res.1 }, res.2)

/-- The `ReScale` estimator's instance state (source lines 112–128). -/
structure ReScale where
  domains : List String
  metric : MetricOps
  re_scale_ : Option TLStretchFitted := none
  dispersions_ : Option (List (String × ℚ)) := none

/-- `ReScale.fit` (source lines 130–152): encode the caller-supplied
labels and domains, fit a fresh `TLStretch` with `centered_data=False`,
store it and the fitted per-domain dispersions. -/
def ReScale.fit (self : ReScale) (X : List ℚ) (y : List ℤ) : ReScale :=
  let y_enc := encode_domains y self.domains
  let rs := TLStretch.fit
    { target_domain := "target_domain", centered_data := false, metric := self.metric } X y_enc
  { self with re_scale_ := some rs, dispersions_ := some rs.dispersions_ }

/-- `ReScale.transform` (source lines 154–180): tag every sample with the
synthetic target domain and placeholder labels, fit a fresh `TLStretch`
on `X` itself, then apply its `transform` to `X` as a separate step. -/
def ReScale.transform (self : ReScale) (X : List ℚ) (y : Option (List ℤ)) :
    ReScale × List ℚ :=
  let n := X.length
  let y_enc := encode_domains (List.replicate n 0) (List.replicate n "target_domain")
  let rs := TLStretch.fit
    { target_domain := "target_domain", centered_data := false, metric := self.metric } X y_enc
  ({ self with re_scale_ := some rs }, rs.transform X)

/-- `ReScale.fit_transform` (source lines 182–205): encode the
caller-supplied labels and domains and fit-and-transform a fresh
`TLStretch` in one pass. -/
def ReScale.fit_transform (self : ReScale) (X : List ℚ) (y : List ℤ) :
    ReScale × List ℚ :=
  let y_enc := encode_domains y self.domains
  let res := TLStretch.fit_transform
    { target_domain := "target_domain", centered_data := false, metric := self.metric } X y_enc
  ({ self with re_scale_ := some res.1 }, res.2)

/-- The per-domain dispersion as the spec's words describe it for
`ReScale.fit` (§4.4): the average squared geodesic distance of the
domain's matrices to the identity matrix (represented by `1`), with no
per-domain mean recomputed. -/
def specDispersion (ops : MetricOps) (xs : List ℚ) : ℚ :=
  (xs.map (fun x => ops.dist2 x 1)).sum / (xs.length : ℚ)

/-! ## Theorems: shape normalization (`_check_data`) -/

/-- C5: Shape normalization round-trip: every input that is already a
3-dimensional numeric array is returned unchanged by `_check_data`, and a
single SPD matrix of shape `(c,c)` passed as (tabular) input normalizes to
shape `(1,c,c)`, a leading dimension of size 1 being added. -/
theorem check_data_round_trip (a : NumArr) (h3 : a.shape.length = 3)
    (c : Nat) (M : NumArr) (hM : M.shape = [c, c]) :
    _check_data (XInput.ndarr a) = .ok (some (.numeric a)) ∧
    _check_data (XInput.frame true [[M]]) = .ok (some (.numeric ⟨[1, c, c], M.data⟩)) := by
  constructor
  · simp [_check_data, h3]
  · simp [_check_data, stackValues, npStackCol, singleSampleStep, StackOut.shape, hM]

/-- Witness for C5 at a concrete 3-D array and a concrete 2×2 matrix. -/
theorem check_data_round_trip_w :
    _check_data (XInput.ndarr ⟨[1, 1, 1], [5]⟩) = .ok (some (.numeric ⟨[1, 1, 1], [5]⟩)) ∧
    _check_data (XInput.frame true [[⟨[2, 2], [1, 0, 0, 1]⟩]]) =
      .ok (some (.numeric ⟨[1, 2, 2], [1, 0, 0, 1]⟩)) :=
  check_data_round_trip ⟨[1, 1, 1], [5]⟩ rfl 2 ⟨[2, 2], [1, 0, 0, 1]⟩ rfl

/-- C7: when the stack built from an object-typed tabular input is
2-dimensional, `_check_data` requires the two axes to be equal and raises
(AssertionError, surfaced to the caller) when they are not; when they are
equal it succeeds, adding a leading dimension of size 1. -/
theorem check_data_single_sample_square (rows : List (List NumArr)) (st : StackOut)
    (hstack : stackValues rows = .ok st) (h2 : st.shape.length = 2) :
    (st.shape.getD 0 0 ≠ st.shape.getD 1 0 →
      _check_data (XInput.frame true rows) = .error .assertionError) ∧
    (st.shape.getD 0 0 = st.shape.getD 1 0 →
      _check_data (XInput.frame true rows) = .ok (some st.newaxis)) := by
  have hs : _check_data (XInput.frame true rows) =
      match singleSampleStep st with
      | .error e => .error e
      | .ok out => .ok (some out) := by
    simp [_check_data, hstack]
  constructor <;> intro h
  · rw [hs, singleSampleStep, if_pos h2, if_neg h]
  · rw [hs, singleSampleStep, if_pos h2, if_pos h]

/-- Witness for C7: a one-column object input of two length-3 vector cells
stacks to a non-square 2-D array and is rejected. -/
theorem check_data_single_sample_square_w :
    ((StackOut.numeric ⟨[2, 3], [1, 2, 3, 4, 5, 6]⟩).shape.getD 0 0 ≠
        (StackOut.numeric ⟨[2, 3], [1, 2, 3, 4, 5, 6]⟩).shape.getD 1 0 →
      _check_data (XInput.frame true [[⟨[3], [1, 2, 3]⟩], [⟨[3], [4, 5, 6]⟩]]) =
        .error .assertionError) ∧
    ((StackOut.numeric ⟨[2, 3], [1, 2, 3, 4, 5, 6]⟩).shape.getD 0 0 =
        (StackOut.numeric ⟨[2, 3], [1, 2, 3, 4, 5, 6]⟩).shape.getD 1 0 →
      _check_data (XInput.frame true [[⟨[3], [1, 2, 3]⟩], [⟨[3], [4, 5, 6]⟩]]) =
        .ok (some (StackOut.numeric ⟨[2, 3], [1, 2, 3, 4, 5, 6]⟩).newaxis)) :=
  check_data_single_sample_square [[⟨[3], [1, 2, 3]⟩], [⟨[3], [4, 5, 6]⟩]]
    (.numeric ⟨[2, 3], [1, 2, 3, 4, 5, 6]⟩) rfl rfl

/-- C9: for a tabular input whose `.values` has a non-object dtype (and
which is not a 3-dimensional array), `_check_data` returns `None`
silently — no exception — so the enclosing call proceeds past the
normalization step with `None` in place of the matrix stack. -/
theorem check_data_numeric_frame_none (rows : List (List NumArr)) :
    _check_data (XInput.frame false rows) = .ok none := rfl

/-- C10 (amended): with more than one column, no exactly-one-column check
exists and the column dimension is not dropped — all cells are stacked
into a 2-D object array of shape `(n_rows, n_cols)`; the single-sample
branch then asserts `n_rows = n_cols`, raising AssertionError when they
differ, and otherwise returns a `(1, n_rows, n_cols)` object-dtype array
of the cells — in no case an `(n,c,c)` numeric single-matrix stack. -/
theorem check_data_multicolumn (rows : List (List NumArr)) (n m : Nat) (a : NumArr)
    (hn : rows.length = n) (hn1 : 1 ≤ n) (hm2 : 2 ≤ m)
    (hrect : ∀ r ∈ rows, r.length = m) :
    (n ≠ m → _check_data (XInput.frame true rows) = .error .assertionError) ∧
    (n = m →
      _check_data (XInput.frame true rows) = .ok (some (.objArr [1, n, m] rows.flatten))) ∧
    _check_data (XInput.frame true rows) ≠ .ok (some (.numeric a)) := by
  cases rows with
  | nil => simp at hn; omega
  | cons r rest =>
    have hr : r.length = m := hrect r (by simp)
    have hrest : ∀ x ∈ rest, x.length = m := fun x hx => hrect x (by simp [hx])
    have hm1 : ¬(m = 1) := by omega
    have hn' : rest.length + 1 = n := by simpa using hn
    have hst : stackValues (r :: rest) = .ok (.objArr [n, m] ((r :: rest).flatten)) := by
      simp [stackValues, npStackGrid, hr, hm1, hn']
      exact hrest
    refine ⟨fun hne => ?_, fun heq => ?_, ?_⟩
    · simp [_check_data, hst, singleSampleStep, StackOut.shape, hne]
    · simp [_check_data, hst, singleSampleStep, StackOut.shape, heq, StackOut.newaxis]
    · by_cases hnm : n = m
      · simp [_check_data, hst, singleSampleStep, StackOut.shape, hnm, StackOut.newaxis]
      · simp [_check_data, hst, singleSampleStep, StackOut.shape, hnm]

/-- C10 counterexample: a 1-row, 2-column object input — the code raises
AssertionError (the 2-D object stack has unequal axes 1 and 2), so it is
not the case that multi-column input never raises. -/
theorem check_data_multicolumn_cex :
    _check_data (XInput.frame true [[⟨[1], [1]⟩, ⟨[1], [2]⟩]]) = .error .assertionError := rfl

/-- Witness for C10 (amended) at a concrete square 2×2-cell object input. -/
theorem check_data_multicolumn_w :
    ((2 : Nat) ≠ 2 →
      _check_data (XInput.frame true
        [[⟨[1], [1]⟩, ⟨[1], [2]⟩], [⟨[1], [3]⟩, ⟨[1], [4]⟩]]) = .error .assertionError) ∧
    ((2 : Nat) = 2 →
      _check_data (XInput.frame true
        [[⟨[1], [1]⟩, ⟨[1], [2]⟩], [⟨[1], [3]⟩, ⟨[1], [4]⟩]]) =
        .ok (some (.objArr [1, 2, 2]
          ([[⟨[1], [1]⟩, ⟨[1], [2]⟩], [⟨[1], [3]⟩, ⟨[1], [4]⟩]] : List (List NumArr)).flatten))) ∧
    _check_data (XInput.frame true
      [[⟨[1], [1]⟩, ⟨[1], [2]⟩], [⟨[1], [3]⟩, ⟨[1], [4]⟩]]) ≠
      .ok (some (.numeric ⟨[2, 2], [1, 2, 3, 4]⟩)) :=
  check_data_multicolumn [[⟨[1], [1]⟩, ⟨[1], [2]⟩], [⟨[1], [3]⟩, ⟨[1], [4]⟩]] 2 2
    ⟨[2, 2], [1, 2, 3, 4]⟩ rfl (by omega) (by omega) (by decide)

/-! ## Helper lemmas for the synthetic target-domain encoding -/

/-- Zipping two equal-length replicated lists replicates the pair. -/
theorem replicate_zip_replicate (n : Nat) (a : ℤ) (b : String) :
    (List.replicate n a).zip (List.replicate n b) = List.replicate n (a, b) := by
  induction n with
  | zero => rfl
  | succ k ih => simp [List.replicate_succ, ih]

/-- Zipping a list with a same-length replicated constant tags each element. -/
theorem zip_replicate_length (X : List ℚ) (c : ℤ × String) :
    X.zip (List.replicate X.length c) = X.map (fun x => (x, c)) := by
  induction X with
  | nil => rfl
  | cons x xs ih => simp [List.replicate_succ, ih]

/-- When every sample carries the same domain tag, that domain's sample
list is all of `X`. -/
theorem samplesOf_replicate (X : List ℚ) (l : ℤ) (d : String) :
    samplesOf X (List.replicate X.length (l, d)) d = X := by
  unfold samplesOf
  rw [zip_replicate_length]
  induction X with
  | nil => rfl
  | cons x xs ih => simp [List.filter_cons] at ih ⊢; simp [ih]

/-- Closed form of `ReCenter.transform`: the output re-centers every
sample of `X` by the metric mean of `X` itself (the one synthetic target
domain). -/
theorem recenter_transform_closed (s : ReCenter) (X : List ℚ) (yt : Option (List ℤ)) :
    (ReCenter.transform s X yt).2 = X.map (fun x => s.metric.recenter (s.metric.mean X) x) := by
  have h1 : encode_domains (List.replicate X.length 0) (List.replicate X.length "target_domain")
      = List.replicate X.length ((0 : ℤ), "target_domain") :=
    replicate_zip_replicate X.length 0 "target_domain"
  simp only [ReCenter.transform, TLCenter.fit_transform, domainMean, h1]
  rw [zip_replicate_length]
  simp [List.map_map, samplesOf_replicate]

/-- `getElem?` on a zipped list, componentwise. -/
theorem zip_getElem_opt {α β : Type} (l1 : List α) (l2 : List β) (k : Nat) :
    (l1.zip l2)[k]? = (l1[k]?).bind (fun a => (l2[k]?).map (fun b => (a, b))) := by
  induction l1 generalizing l2 k with
  | nil => simp
  | cons a l ih =>
    cases l2 with
    | nil => simp
    | cons b l2 =>
      cases k with
      | zero => simp
      | succ k => simpa using ih l2 k

/-! ## Theorems: `ReCenter` / `ReScale` -/

/-- C1: for every fitted `ReCenter` instance, `transform` computes the
re-centering mean freshly from its own input `X` (all samples tagged as
one synthetic target domain): the output is the same for any two instance
states sharing the metric configuration, equals a fresh
`TLCenter.fit_transform` on `X` under the synthetic encoding, and is
identical whether or not `fit` was previously called (and with whatever
data). -/
theorem recenter_transform_fresh (s s' : ReCenter) (h : s.metric = s'.metric)
    (X X0 : List ℚ) (y y' yt : Option (List ℤ)) (y0 : List ℤ) :
    (ReCenter.transform s X y).2 = (ReCenter.transform s' X y').2 ∧
    (ReCenter.transform s X y).2 =
      (TLCenter.fit_transform { target_domain := "target_domain", metric := s.metric } X
        (encode_domains (List.replicate X.length 0)
          (List.replicate X.length "target_domain"))).2 ∧
    (ReCenter.transform (ReCenter.fit s X0 y0) X yt).2 = (ReCenter.transform s X y).2 := by
  refine ⟨?_, rfl, ?_⟩
  · simp [ReCenter.transform, h]
  · simp [ReCenter.transform, ReCenter.fit]

/-- Witness for C1: two instances with the same metric but different
domain lists, label arguments and fit histories yield the same transform
output on `[2, 4]`. -/
theorem recenter_transform_fresh_w :
    (ReCenter.transform ⟨["A", "B"], euclidOps, none, none⟩ [2, 4] none).2 =
      (ReCenter.transform ⟨["C"], euclidOps, none, some [("C", 9)]⟩ [2, 4] (some [1, 1])).2 ∧
    (ReCenter.transform ⟨["A", "B"], euclidOps, none, none⟩ [2, 4] none).2 =
      (TLCenter.fit_transform { target_domain := "target_domain", metric := euclidOps } [2, 4]
        (encode_domains (List.replicate 2 0) (List.replicate 2 "target_domain"))).2 ∧
    (ReCenter.transform
        (ReCenter.fit ⟨["A", "B"], euclidOps, none, none⟩ [1, 5] [0, 1]) [2, 4] (some [3, 3])).2 =
      (ReCenter.transform ⟨["A", "B"], euclidOps, none, none⟩ [2, 4] none).2 :=
  recenter_transform_fresh ⟨["A", "B"], euclidOps, none, none⟩
    ⟨["C"], euclidOps, none, some [("C", 9)]⟩ rfl [2, 4] [1, 5] none (some [1, 1])
    (some [3, 3]) [0, 1]

/-- C6: noninterference of `transform` from labels and true domains — for
fitted `ReCenter`/`ReScale` instances agreeing on the metric, the output
of `transform` is the same for every `y` argument and every construction
`domains` sequence; and the combined key construction with the `n`
placeholder labels and `n` synthetic target tags succeeds, producing `n`
keys. -/
theorem transform_noninterference (s s' : ReCenter) (t t' : ReScale)
    (hm : s.metric = s'.metric) (ht : t.metric = t'.metric)
    (X : List ℚ) (y y' : Option (List ℤ)) :
    (ReCenter.transform s X y).2 = (ReCenter.transform s' X y').2 ∧
    (ReScale.transform t X y).2 = (ReScale.transform t' X y').2 ∧
    (encode_domains (List.replicate X.length 0)
      (List.replicate X.length "target_domain")).length = X.length := by
  refine ⟨by simp [ReCenter.transform, hm], by simp [ReScale.transform, ht], ?_⟩
  simp [encode_domains]

/-- Witness for C6: instances with different domain lists and different
label arguments give identical transform outputs on `[4, 8]`. -/
theorem transform_noninterference_w :
    (ReCenter.transform ⟨["A"], euclidOps, none, none⟩ [4, 8] none).2 =
      (ReCenter.transform ⟨["B", "C"], euclidOps, none, none⟩ [4, 8] (some [7, 7])).2 ∧
    (ReScale.transform ⟨["A"], euclidOps, none, none⟩ [4, 8] none).2 =
      (ReScale.transform ⟨["B", "C"], euclidOps, none, none⟩ [4, 8] (some [7, 7])).2 ∧
    (encode_domains (List.replicate 2 0) (List.replicate 2 "target_domain")).length = 2 :=
  transform_noninterference ⟨["A"], euclidOps, none, none⟩ ⟨["B", "C"], euclidOps, none, none⟩
    ⟨["A"], euclidOps, none, none⟩ ⟨["B", "C"], euclidOps, none, none⟩ rfl rfl [4, 8]
    none (some [7, 7])

/-- C8: `ReScale.transform` proceeds in two separate steps — it first fits
a fresh `TLStretch` dispersion estimate on `X` itself under the synthetic
target-domain tagging, stores that fitted estimator, and then applies that
estimator's separate `transform` to `X`; `ReScale.fit` only fits (it
returns the instance updated with the fitted estimator and dispersions and
produces no transformed data). -/
theorem rescale_transform_two_step (t : ReScale) (X : List ℚ) (y : Option (List ℤ))
    (yl : List ℤ) :
    (ReScale.transform t X y).2 =
      TLStretchFitted.transform
        (TLStretch.fit
          { target_domain := "target_domain", centered_data := false, metric := t.metric } X
          (encode_domains (List.replicate X.length 0)
            (List.replicate X.length "target_domain"))) X ∧
    (ReScale.transform t X y).1.re_scale_ =
      some (TLStretch.fit
        { target_domain := "target_domain", centered_data := false, metric := t.metric } X
        (encode_domains (List.replicate X.length 0)
          (List.replicate X.length "target_domain"))) ∧
    ReScale.fit t X yl =
      { t with
        re_scale_ := some (TLStretch.fit
          { target_domain := "target_domain", centered_data := false, metric := t.metric } X
          (encode_domains yl t.domains)),
        dispersions_ := some (TLStretch.fit
          { target_domain := "target_domain", centered_data := false, metric := t.metric } X
          (encode_domains yl t.domains)).dispersions_ } :=
  ⟨rfl, rfl, rfl⟩

/-- C2 counterexample: on the single-domain input `X = [1, 3]` (1×1 SPD
matrices, Euclidean metric), `ReScale.fit` stores dispersion `1` — the
average squared distance to the domain's *recomputed* mean `2` (the fitted
estimator's stored center is `2`, not the identity `1`, because the source
passes `centered_data=False`) — whereas the spec's
average-squared-distance-to-identity dispersion of the same data is `2`. -/
theorem rescale_fit_dispersion_cex :
    (ReScale.fit ⟨["d", "d"], euclidOps, none, none⟩ [1, 3] [0, 0]).dispersions_
      = some [("d", 1)] ∧
    ((ReScale.fit ⟨["d", "d"], euclidOps, none, none⟩ [1, 3] [0, 0]).re_scale_).map
      TLStretchFitted.means = some [("d", 2)] ∧
    specDispersion euclidOps [1, 3] = 2 ∧
    (ReScale.fit ⟨["d", "d"], euclidOps, none, none⟩ [1, 3] [0, 0]).dispersions_
      ≠ some [("d", specDispersion euclidOps [1, 3])] := by
  refine ⟨?_, ?_, ?_, ?_⟩ <;>
    simp [ReScale.fit, TLStretch.fit, stretchDisp, stretchMean, uniqueDomains, samplesOf,
      encode_domains, euclidOps, specDispersion] <;> norm_num

/-- C2 (amended): `ReScale.fit` stores, per domain, the average squared
geodesic distance of the domain's matrices to that domain's *recomputed*
metric mean (the fitted `TLStretch` is configured with
`centered_data=False`, so it recomputes each domain's mean rather than
taking the identity); the dispersions are stored on the instance and `X`
is not transformed. -/
theorem rescale_fit_amended (t : ReScale) (X : List ℚ) (y : List ℤ) :
    (ReScale.fit t X y).dispersions_ =
      some ((uniqueDomains (encode_domains y t.domains)).map (fun d =>
        (d, ((samplesOf X (encode_domains y t.domains) d).map
          (fun x => t.metric.dist2 x
            (t.metric.mean (samplesOf X (encode_domains y t.domains) d)))).sum
          / ((samplesOf X (encode_domains y t.domains) d).length : ℚ)))) ∧
    (ReScale.fit t X y).re_scale_ =
      some (TLStretch.fit
        { target_domain := "target_domain", centered_data := false, metric := t.metric } X
        (encode_domains y t.domains)) ∧
    (ReScale.fit t X y).domains = t.domains ∧ (ReScale.fit t X y).metric = t.metric := by
  refine ⟨?_, rfl, rfl, rfl⟩
  simp [ReScale.fit, TLStretch.fit, stretchDisp, stretchMean]

/-- C3 counterexample: after `fit` on `[1, 3]` (domain "A", mean `2`) a
subsequent `transform` on `[5, 7]` computes target-domain statistics
(mean `6`) but leaves the stored `means_` at the fit-time value — so it is
not the case that every fit/transform call overwrites the stored `means_`
with that call's statistics. -/
theorem recenter_state_overwrite_cex :
    ((ReCenter.transform (ReCenter.fit ⟨["A", "A"], euclidOps, none, none⟩ [1, 3] [0, 0])
        [5, 7] none).1).means_ = some [("A", 2)] ∧
    (TLCenter.fit { target_domain := "target_domain", metric := euclidOps } [5, 7]
        (encode_domains (List.replicate 2 0) (List.replicate 2 "target_domain"))).recenter_
      = [("target_domain", 6)] ∧
    some [("A", (2 : ℚ))] ≠ some [("target_domain", (6 : ℚ))] := by
  refine ⟨?_, ?_, by simp⟩ <;>
    simp [ReCenter.transform, ReCenter.fit, TLCenter.fit, domainMean, uniqueDomains,
      samplesOf, encode_domains, euclidOps] <;> norm_num

/-- C3 (amended): every `fit`, `transform` or `fit_transform` call
overwrites the instance's fitted collaborator estimator
(`re_center_`/`re_scale_`) wholesale with one freshly fitted during that
call; but the `means_`/`dispersions_` snapshot attributes are written only
by `fit` — `transform` and `fit_transform` leave them at their previous
values. -/
theorem state_overwrite_amended (s : ReCenter) (t : ReScale) (X X2 : List ℚ)
    (y : List ℤ) (yt : Option (List ℤ)) :
    (ReCenter.fit s X y).re_center_ =
      some (TLCenter.fit { target_domain := "target_domain", metric := s.metric } X
        (encode_domains y s.domains)) ∧
    (ReCenter.fit s X y).means_ =
      some (TLCenter.fit { target_domain := "target_domain", metric := s.metric } X
        (encode_domains y s.domains)).recenter_ ∧
    (ReCenter.transform s X2 yt).1.re_center_ =
      some (TLCenter.fit_transform { target_domain := "target_domain", metric := s.metric } X2
        (encode_domains (List.replicate X2.length 0)
          (List.replicate X2.length "target_domain"))).1 ∧
    (ReCenter.transform s X2 yt).1.means_ = s.means_ ∧
    (ReCenter.fit_transform s X y).1.re_center_ =
      some (TLCenter.fit_transform { target_domain := "target_domain", metric := s.metric } X
        (encode_domains y s.domains)).1 ∧
    (ReCenter.fit_transform s X y).1.means_ = s.means_ ∧
    (ReScale.fit t X y).re_scale_ =
      some (TLStretch.fit
        { target_domain := "target_domain", centered_data := false, metric := t.metric } X
        (encode_domains y t.domains)) ∧
    (ReScale.fit t X y).dispersions_ =
      some (TLStretch.fit
        { target_domain := "target_domain", centered_data := false, metric := t.metric } X
        (encode_domains y t.domains)).dispersions_ ∧
    (ReScale.transform t X2 yt).1.re_scale_ =
      some (TLStretch.fit
        { target_domain := "target_domain", centered_data := false, metric := t.metric } X2
        (encode_domains (List.replicate X2.length 0)
          (List.replicate X2.length "target_domain"))) ∧
    (ReScale.transform t X2 yt).1.dispersions_ = t.dispersions_ ∧
    (ReScale.fit_transform t X y).1.re_scale_ =
      some (TLStretch.fit_transform
        { target_domain := "target_domain", centered_data := false, metric := t.metric } X
        (encode_domains y t.domains)).1 ∧
    (ReScale.fit_transform t X y).1.dispersions_ = t.dispersions_ :=
  ⟨rfl, rfl, rfl, rfl, rfl, rfl, rfl, rfl, rfl, rfl, rfl, rfl⟩

/-- C4: for multi-domain training input, `fit_transform` re-centers each
sample by its own true domain's mean (grouping by the caller-supplied
domains and `y`), whereas `fit` followed by `transform` re-centers the
entire input as one single synthetic unseen domain; whenever two samples'
domains have different means (Euclidean metric on 1×1 SPD matrices), the
two call sequences produce different outputs. -/
theorem recenter_fit_transform_divergence
    (s : ReCenter) (X : List ℚ) (y : List ℤ) (yt : Option (List ℤ)) (i j : Nat)
    (hm : s.metric = euclidOps)
    (hyl : y.length = X.length) (hdl : s.domains.length = X.length)
    (hi : i < X.length) (hj : j < X.length)
    (hdiff : euclidOps.mean (samplesOf X (encode_domains y s.domains) (s.domains.getD i ""))
           ≠ euclidOps.mean (samplesOf X (encode_domains y s.domains) (s.domains.getD j ""))) :
    (ReCenter.fit_transform s X y).2 =
      (X.zip (encode_domains y s.domains)).map (fun p =>
        euclidOps.recenter
          (euclidOps.mean (samplesOf X (encode_domains y s.domains) p.2.2)) p.1) ∧
    (ReCenter.transform (ReCenter.fit s X y) X yt).2 =
      X.map (fun x => euclidOps.recenter (euclidOps.mean X) x) ∧
    (ReCenter.fit_transform s X y).2 ≠ (ReCenter.transform (ReCenter.fit s X y) X yt).2 := by
  have hA : (ReCenter.fit_transform s X y).2 =
      (X.zip (encode_domains y s.domains)).map (fun p =>
        euclidOps.recenter
          (euclidOps.mean (samplesOf X (encode_domains y s.domains) p.2.2)) p.1) := by
    simp [ReCenter.fit_transform, TLCenter.fit_transform, domainMean, hm]
  have hB : (ReCenter.transform (ReCenter.fit s X y) X yt).2 =
      X.map (fun x => euclidOps.recenter (euclidOps.mean X) x) := by
    rw [recenter_transform_closed]
    simp [ReCenter.fit, hm]
  refine ⟨hA, hB, ?_⟩
  intro heq
  rw [hA, hB] at heq
  have key : ∀ k, k < X.length →
      euclidOps.mean (samplesOf X (encode_domains y s.domains) (s.domains.getD k "")) =
        euclidOps.mean X := by
    intro k hk
    have hky : k < y.length := by omega
    have hkd : k < s.domains.length := by omega
    have hzk : (X.zip (encode_domains y s.domains))[k]? =
        some (X.getD k 0, (y.getD k 0, s.domains.getD k "")) := by
      rw [zip_getElem_opt]
      rw [show encode_domains y s.domains = y.zip s.domains from rfl]
      rw [zip_getElem_opt]
      rw [List.getElem?_eq_getElem hk, List.getElem?_eq_getElem hky,
        List.getElem?_eq_getElem hkd, List.getD_eq_getElem X 0 hk,
        List.getD_eq_getElem y 0 hky, List.getD_eq_getElem s.domains "" hkd]
      rfl
    have e1 := congrArg (fun l => l[k]?) heq
    simp only [List.getElem?_map, hzk, List.getElem?_eq_getElem hk, Option.map_some'] at e1
    have hXk : X.getD k 0 = X[k] := List.getD_eq_getElem X 0 hk
    simp only [euclidOps, Option.some.injEq, hXk] at e1
    simp only [euclidOps]
    linarith [e1]
  exact hdiff ((key i hi).trans (key j hj).symm)

/-- Witness for C4: two domains "A" (samples 1, 3, mean 2) and "B"
(samples 11, 13, mean 12) — `fit_transform` and fit-then-`transform`
disagree on this input. -/
theorem recenter_fit_transform_divergence_w :
    (ReCenter.fit_transform ⟨["A", "A", "B", "B"], euclidOps, none, none⟩
        [1, 3, 11, 13] [0, 0, 1, 1]).2 =
      (([1, 3, 11, 13] : List ℚ).zip (encode_domains [0, 0, 1, 1] ["A", "A", "B", "B"])).map
        (fun p =>
          euclidOps.recenter
            (euclidOps.mean (samplesOf [1, 3, 11, 13]
              (encode_domains [0, 0, 1, 1] ["A", "A", "B", "B"]) p.2.2)) p.1) ∧
    (ReCenter.transform
        (ReCenter.fit ⟨["A", "A", "B", "B"], euclidOps, none, none⟩ [1, 3, 11, 13] [0, 0, 1, 1])
        [1, 3, 11, 13] none).2 =
      ([1, 3, 11, 13] : List ℚ).map
        (fun x => euclidOps.recenter (euclidOps.mean [1, 3, 11, 13]) x) ∧
    (ReCenter.fit_transform ⟨["A", "A", "B", "B"], euclidOps, none, none⟩
        [1, 3, 11, 13] [0, 0, 1, 1]).2 ≠
      (ReCenter.transform
        (ReCenter.fit ⟨["A", "A", "B", "B"], euclidOps, none, none⟩ [1, 3, 11, 13] [0, 0, 1, 1])
        [1, 3, 11, 13] none).2 :=
  recenter_fit_transform_divergence ⟨["A", "A", "B", "B"], euclidOps, none, none⟩
    [1, 3, 11, 13] [0, 0, 1, 1] none 0 2 rfl rfl rfl (by decide) (by decide)
    (by simp [samplesOf, encode_domains, euclidOps]; norm_num)
